import Mathlib

/-!
Shallow embedding of the Forensic Capture tool (capture.py).

The tool drives a headless browser over a fixed URL list, per label:
for each URL it navigates, waits for network idle (non-fatally), reads
the rendered HTML, applies a minimum-byte-size gate, writes three
artifact files (HTML dump, screenshot, network-log stub), and returns a
capture record that the outer loop appends both to a per-label list and
to the session manifest.  The browser engine, the HTML parser and the
digest provider are external black-box collaborators of the script; the
embedding passes them in as function-valued parameters (`Collab`) and
models the per-URL environment (navigation outcome, rendered HTML,
injected faults) explicitly.  File writes are modelled as a list of
(path, content) pairs with paths relative to the output root, which is
how the record itself stores them.
-/

namespace ForensicCapture

/-- Black-box collaborators of the script: the digest provider
(hashlib md5 and sha256 hexdigests of the UTF-8 encoding of a string)
and the HTML parser (BeautifulSoup text, link, image and form
extraction). They are parameters of the embedding. -/
structure Collab where
  md5hex : String → String
  sha256hex : String → String
  textOf : String → String
  linksOf : String → List String
  imagesOf : String → List String
  formsOf : String → Nat

/-- Configuration of a run: labels and the minimum-bytes threshold.
The threshold is a Python int parsed by argparse with no validation, so
it is modelled as an unconstrained integer. -/
structure Config where
  labels : List String
  minBytes : Int

/-- Playwright navigation response, carrying the HTTP status. -/
structure Response where
  status : Nat
deriving DecidableEq, Repr

/-- Playwright response.ok: true exactly when the status is in 200..299. -/
def Response.ok (r : Response) : Bool :=
  decide (200 ≤ r.status) && decide (r.status < 300)

/-- Outcome of page.goto for one URL: the call raises, returns no
response, or returns a response. -/
inductive NavResult where
  | raises
  | noResponse
  | resp (r : Response)
deriving DecidableEq, Repr

/-- Per-page environment supplied by the browser: the navigation
outcome, whether the network-idle wait times out, the rendered HTML
returned by page.content, the page title, and the final URL after
redirects. -/
structure PageEnv where
  nav : NavResult
  idleTimesOut : Bool
  html : String
  title : String
  urlFinal : String

/-- The three artifact paths stored in the files field of a record,
relative to the output root. -/
structure FilesTriple where
  html : String
  screenshot : String
  network : String
deriving DecidableEq, Repr

/-- Capture record assembled by capture_page_data (capture.py lines
139-158). -/
structure CaptureRecord where
  capture_id : String
  label : String
  url_original : String
  url_final : String
  timestamp : String
  title : String
  html_size : Nat
  text_length : Nat
  links_count : Nat
  images_count : Nat
  forms_count : Nat
  files : FilesTriple
  hash_md5 : String
  hash_sha256 : String
deriving DecidableEq, Repr

/-- Content of the network-log JSON file (capture.py lines 161-165):
the requests list is the literal empty list in the source. -/
structure NetworkData where
  capture_id : String
  timestamp : String
  requests : List String
deriving DecidableEq, Repr

/-- Content of one written file: a UTF-8 text write (the HTML dump), the
screenshot bytes (opaque to the script), or the network-log JSON. -/
inductive FileContent where
  | text (s : String)
  | png
  | json (d : NetworkData)
deriving DecidableEq, Repr

/-- One file write: path relative to the output root, and content. -/
abbrev FileWrite := String × FileContent

/-- The string hashed to form the capture id (capture.py line 83). -/
def captureIdPre (url label ts : String) : String :=
  url ++ "_" ++ label ++ "_" ++ ts

/-- capture_id: md5 hexdigest of the joined url, label and timestamp. -/
def captureId (c : Collab) (url label ts : String) : String :=
  c.md5hex (captureIdPre url label ts)

/-- Result of one capture_page_data call: the returned record (none is
the no-capture result), the file writes performed, and the warnings
logged. -/
structure CaptureOutcome where
  record : Option CaptureRecord
  writes : List FileWrite
  warnings : List String
deriving DecidableEq, Repr

/-- capture_page_data (capture.py lines 80-171): navigation check, idle
wait with non-fatal timeout, fixed grace delay, HTML extraction, size
gate, artifact persistence, metadata assembly. -/
def capturePageData (cfg : Config) (c : Collab) (env : PageEnv)
    (url label ts : String) : CaptureOutcome :=
  let cid := captureId c url label ts
  match env.nav with
  | .raises =>
    { record := none, writes := [], warnings := ["navigation failed for " ++ url] }
  | .noResponse =>
    { record := none, writes := [], warnings := ["failed to load " ++ url] }
  | .resp r =>
    if !r.ok then
      { record := none, writes := [], warnings := ["failed to load " ++ url] }
    else
      let idleWarnings : List String :=
        if env.idleTimesOut then ["network idle timeout for " ++ url] else []
      let html_content := env.html
      let html_size := html_content.utf8ByteSize
      if (html_size : Int) < cfg.minBytes then
        { record := none, writes := [],
          warnings := idleWarnings ++ ["html content too small, skipping " ++ url] }
      else
        let html_file := "html_dumps/" ++ cid ++ "_" ++ label ++ ".html"
        let screenshot_file := "screenshots/" ++ cid ++ "_" ++ label ++ ".png"
        let network_file := "network_logs/" ++ cid ++ "_" ++ label ++ "_network.json"
        let record : CaptureRecord :=
          { capture_id := cid
            label := label
            url_original := url
            url_final := env.urlFinal
            timestamp := ts
            title := env.title
            html_size := html_size
            text_length := (c.textOf html_content).length
            links_count := (c.linksOf html_content).length
            images_count := (c.imagesOf html_content).length
            forms_count := c.formsOf html_content
            files := ⟨html_file, screenshot_file, network_file⟩
            hash_md5 := c.md5hex html_content
            hash_sha256 := c.sha256hex html_content }
        { record := some record
          writes := [(html_file, .text html_content),
                     (screenshot_file, .png),
                     (network_file, .json ⟨cid, ts, []⟩)]
          warnings := idleWarnings }

/-- Fault injected into one iteration of the per-URL loop: no fault, or
an unexpected exception raised by setup_browser, by new_page, inside
capture_page_data after its guarded navigation, or by the rate-limiting
wait that follows the append. -/
inductive Fault where
  | nofault
  | setupRaises
  | newPageRaises
  | captureRaises
  | rateWaitRaises
deriving DecidableEq, Repr

/-- Environment for one URL iteration of search_and_capture: the
capture start timestamp, the injected fault, and the page environment. -/
structure UrlEnv where
  ts : String
  fault : Fault
  page : PageEnv

/-- Observable trace entry for one URL iteration: the URL processed,
whether a record was appended, and whether the finally block attempting
page, browser and playwright teardown ran. -/
structure UrlEvent where
  url : String
  recorded : Bool
  cleanupAttempted : Bool
deriving DecidableEq, Repr

/-- State threaded through the capture loop: the session manifest
captures list (self.capture_metadata, shared across labels), the
per-call local captures list, and the event trace. -/
structure LoopState where
  manifestCaptures : List CaptureRecord
  localCaptures : List CaptureRecord
  events : List UrlEvent

/-- The record appended for one URL iteration: none when an unexpected
exception strikes before the append (in setup_browser, new_page or
inside capture_page_data), otherwise the return value of
capture_page_data.  A fault in the rate-limiting wait strikes after the
append, so the record still counts. -/
def urlRecord (cfg : Config) (c : Collab) (label : String)
    (u : String × UrlEnv) : Option CaptureRecord :=
  match u.2.fault with
  | .setupRaises | .newPageRaises | .captureRaises => none
  | .nofault | .rateWaitRaises =>
    (capturePageData cfg c u.2.page u.1 label u.2.ts).record

/-- One iteration of the per-URL loop in search_and_capture (capture.py
lines 184-222): the try block runs setup, new_page and
capture_page_data; a record is appended to both capture lists only when
capture_page_data returns one and no exception struck before the
append; any exception is caught; the finally block always attempts
teardown. -/
def processUrl (cfg : Config) (c : Collab) (label : String)
    (st : LoopState) (u : String × UrlEnv) : LoopState :=
  { manifestCaptures := st.manifestCaptures ++ (urlRecord cfg c label u).toList
    localCaptures := st.localCaptures ++ (urlRecord cfg c label u).toList
    events := st.events ++ [⟨u.1, (urlRecord cfg c label u).isSome, true⟩] }

/-- The per-URL loop of search_and_capture over a list of URLs paired
with their environments. -/
def captureLoop (cfg : Config) (c : Collab) (label : String)
    (us : List (String × UrlEnv)) (st : LoopState) : LoopState :=
  us.foldl (processUrl cfg c label) st

/-- The hardcoded target URL list (capture.py lines 176-180). -/
def targetUrls : List String :=
  ["https://httpbin.org/html", "https://httpbin.org/json",
   "https://www.wikipedia.org/"]

/-- search_and_capture (capture.py lines 173-224): iterate the target
URLs, starting from the manifest captures accumulated so far and an
empty local list. -/
def searchAndCapture (cfg : Config) (c : Collab) (label : String)
    (envs : List UrlEnv) (manifest : List CaptureRecord)
    (events : List UrlEvent) : LoopState :=
  captureLoop cfg c label (targetUrls.zip envs)
    { manifestCaptures := manifest, localCaptures := [], events := events }

/-- Serialized session manifest (the capture_metadata dict plus the
total_captures count added in run_capture). -/
structure SessionManifest where
  labels : List String
  min_bytes : Int
  captures : List CaptureRecord
  total_captures : Nat
deriving Repr

/-- State threaded through run_capture across labels: the manifest
captures list and the all_captures accumulator. -/
structure RunState where
  manifestCaptures : List CaptureRecord
  allCaptures : List CaptureRecord
  events : List UrlEvent

/-- One label iteration of run_capture (capture.py lines 235-242):
run search_and_capture for the label and extend all_captures with the
list it returns. -/
def processLabel (cfg : Config) (c : Collab) (st : RunState)
    (le : String × List UrlEnv) : RunState :=
  let out := searchAndCapture cfg c le.1 le.2 st.manifestCaptures st.events
  { manifestCaptures := out.manifestCaptures
    allCaptures := st.allCaptures ++ out.localCaptures
    events := out.events }

/-- run_capture (capture.py lines 226-258): for each label, run
search_and_capture, extend all_captures with its return value, then
serialize the manifest with total_captures set to the length of
all_captures. -/
def runCapture (cfg : Config) (c : Collab) (envs : List (List UrlEnv)) :
    SessionManifest × List UrlEvent :=
  let final := (cfg.labels.zip envs).foldl (processLabel cfg c)
    (⟨[], [], []⟩ : RunState)
  ({ labels := cfg.labels
     min_bytes := cfg.minBytes
     captures := final.manifestCaptures
     total_captures := final.allCaptures.length }, final.events)

/-- How the top-level run ends: asyncio.run completes, is interrupted,
or raises. -/
inductive RunOutcome where
  | completed
  | interrupted
  | failed
deriving DecidableEq, Repr

/-- Exit code of main (capture.py lines 314-321): 1 on interrupt or
uncaught failure, 0 otherwise. -/
def mainExitCode : RunOutcome → Nat
  | .completed => 0
  | .interrupted => 1
  | .failed => 1

/-- Concrete collaborator instance used to evaluate the embedding at
specific inputs; the digest stand-ins are injective. -/
def collabId : Collab :=
  { md5hex := fun s => s
    sha256hex := fun s => s
    textOf := fun s => s
    linksOf := fun _ => []
    imagesOf := fun _ => []
    formsOf := fun _ => 0 }

/-- Concrete configuration used by witnesses: one label, threshold 3. -/
def cfgEx : Config := ⟨["L"], 3⟩

/-- Concrete configuration with the default one-million threshold. -/
def cfgBig : Config := ⟨["L"], 1000000⟩

/-- Concrete configuration with a negative threshold. -/
def cfgNeg : Config := ⟨["L"], -5⟩

/-- Concrete page environment: HTTP 200, five bytes of HTML. -/
def envEx : PageEnv := ⟨.resp ⟨200⟩, false, "hello", "T", "uf"⟩

/-- Concrete page environment hitting HTTP 404. -/
def env404 : PageEnv := ⟨.resp ⟨404⟩, false, "hello", "T", "uf"⟩

/-- Concrete URL environment whose setup raises. -/
def ufEx : String × UrlEnv := ("u", ⟨"t", .setupRaises, envEx⟩)

/-- The record capture_page_data produces on cfgEx, collabId and envEx
for url u, label L and timestamp t. -/
def recEx : CaptureRecord :=
  { capture_id := "u_L_t"
    label := "L"
    url_original := "u"
    url_final := "uf"
    timestamp := "t"
    title := "T"
    html_size := 5
    text_length := 5
    links_count := 0
    images_count := 0
    forms_count := 0
    files := ⟨"html_dumps/u_L_t_L.html", "screenshots/u_L_t_L.png",
              "network_logs/u_L_t_L_network.json"⟩
    hash_md5 := "hello"
    hash_sha256 := "hello" }

/-- The records appended by one run of the per-URL loop, in order. -/
def loopRecords (cfg : Config) (c : Collab) (label : String)
    (us : List (String × UrlEnv)) : List CaptureRecord :=
  (us.map fun u => (urlRecord cfg c label u).toList).flatten

/-- The trace events emitted by one run of the per-URL loop, in order. -/
def loopEvents (cfg : Config) (c : Collab) (label : String)
    (us : List (String × UrlEnv)) : List UrlEvent :=
  us.map fun u => ⟨u.1, (urlRecord cfg c label u).isSome, true⟩

/-- Inversion: a record returned by capture_page_data forces a
successful navigation and a passed size gate, and every field of the
record is determined by the inputs. -/
theorem capturePageData_record_some {cfg : Config} {c : Collab}
    {env : PageEnv} {url label ts : String} {r : CaptureRecord}
    (h : (capturePageData cfg c env url label ts).record = some r) :
    ∃ resp, env.nav = NavResult.resp resp ∧ resp.ok = true ∧
      cfg.minBytes ≤ (env.html.utf8ByteSize : Int) ∧
      r = { capture_id := captureId c url label ts
            label := label
            url_original := url
            url_final := env.urlFinal
            timestamp := ts
            title := env.title
            html_size := env.html.utf8ByteSize
            text_length := (c.textOf env.html).length
            links_count := (c.linksOf env.html).length
            images_count := (c.imagesOf env.html).length
            forms_count := c.formsOf env.html
            files := ⟨"html_dumps/" ++ captureId c url label ts ++ "_" ++ label ++ ".html",
                      "screenshots/" ++ captureId c url label ts ++ "_" ++ label ++ ".png",
                      "network_logs/" ++ captureId c url label ts ++ "_" ++ label ++ "_network.json"⟩
            hash_md5 := c.md5hex env.html
            hash_sha256 := c.sha256hex env.html } := by
  unfold capturePageData at h
  cases henv : env.nav with
  | raises => rw [henv] at h; simp at h
  | noResponse => rw [henv] at h; simp at h
  | resp resp =>
    rw [henv] at h
    by_cases hok : resp.ok
    · by_cases hsz : (env.html.utf8ByteSize : Int) < cfg.minBytes
      · simp [hok, hsz] at h
      · simp [hok, hsz] at h
        exact ⟨resp, rfl, hok, not_lt.mp hsz, h.symm⟩
    · simp [hok] at h

/-- The writes of a successful capture_page_data call: the HTML dump at
the recorded html path, the screenshot, and the network-log stub. -/
theorem capturePageData_writes_some {cfg : Config} {c : Collab}
    {env : PageEnv} {url label ts : String} {r : CaptureRecord}
    (h : (capturePageData cfg c env url label ts).record = some r) :
    (capturePageData cfg c env url label ts).writes =
      [(r.files.html, FileContent.text env.html),
       (r.files.screenshot, FileContent.png),
       (r.files.network, FileContent.json ⟨r.capture_id, r.timestamp, []⟩)] := by
  obtain ⟨resp, hnav, hok, hsz, hr⟩ := capturePageData_record_some h
  subst hr
  unfold capturePageData
  rw [hnav]
  simp [hok, not_lt.mpr hsz]

/-- Undersized HTML yields the no-capture result on every navigation
outcome. -/
theorem capturePageData_record_none_of_small {cfg : Config} {c : Collab}
    {env : PageEnv} {url label ts : String}
    (h : (env.html.utf8ByteSize : Int) < cfg.minBytes) :
    (capturePageData cfg c env url label ts).record = none := by
  unfold capturePageData
  cases henv : env.nav with
  | raises => simp
  | noResponse => simp
  | resp resp =>
    by_cases hok : resp.ok
    · simp [hok, h]
    · simp [hok]

/-- A failed navigation (no response, or a response outside 200..299)
produces the no-capture outcome with no writes. -/
theorem capturePageData_bad_nav {cfg : Config} {c : Collab}
    {env : PageEnv} {url label ts : String}
    (hbad : env.nav = NavResult.noResponse ∨
      ∃ resp, env.nav = NavResult.resp resp ∧ resp.ok = false) :
    capturePageData cfg c env url label ts =
      { record := none, writes := [],
        warnings := ["failed to load " ++ url] } := by
  unfold capturePageData
  rcases hbad with hnav | ⟨resp, hnav, hok⟩
  · rw [hnav]
  · rw [hnav]
    simp [hok]

/-- A fault that strikes before the append leaves no record for the URL. -/
theorem urlRecord_none_of_fault {cfg : Config} {c : Collab} {label : String}
    {u : String × UrlEnv}
    (hf : u.2.fault = Fault.setupRaises ∨ u.2.fault = Fault.newPageRaises ∨
      u.2.fault = Fault.captureRaises) :
    urlRecord cfg c label u = none := by
  unfold urlRecord
  rcases hf with hf | hf | hf <;> rw [hf]

/-- When capture_page_data yields no record, the URL contributes no
record whatever the fault. -/
theorem urlRecord_none_of_record_none {cfg : Config} {c : Collab}
    {label : String} {u : String × UrlEnv}
    (h : (capturePageData cfg c u.2.page u.1 label u.2.ts).record = none) :
    urlRecord cfg c label u = none := by
  unfold urlRecord
  cases hf : u.2.fault <;> first | rfl | exact h

/-- Any record contributed for a URL is the return value of
capture_page_data on its environment. -/
theorem urlRecord_some {cfg : Config} {c : Collab} {label : String}
    {u : String × UrlEnv} {r : CaptureRecord}
    (h : urlRecord cfg c label u = some r) :
    (capturePageData cfg c u.2.page u.1 label u.2.ts).record = some r := by
  unfold urlRecord at h
  cases hf : u.2.fault <;> rw [hf] at h <;> first | exact h | simp at h

/-- The per-URL loop appends exactly loopRecords to both capture lists
and loopEvents to the trace. -/
theorem captureLoop_eq (cfg : Config) (c : Collab) (label : String)
    (us : List (String × UrlEnv)) : ∀ st : LoopState,
    captureLoop cfg c label us st =
      ⟨st.manifestCaptures ++ loopRecords cfg c label us,
       st.localCaptures ++ loopRecords cfg c label us,
       st.events ++ loopEvents cfg c label us⟩ := by
  induction us with
  | nil => intro st; simp [captureLoop, loopRecords, loopEvents]
  | cons u us ih =>
    intro st
    have step : captureLoop cfg c label (u :: us) st =
        captureLoop cfg c label us (processUrl cfg c label st u) := rfl
    rw [step, ih]
    simp [processUrl, loopRecords, loopEvents, List.append_assoc]

/-- loopRecords distributes over list append. -/
theorem loopRecords_append (cfg : Config) (c : Collab) (label : String)
    (us₁ us₂ : List (String × UrlEnv)) :
    loopRecords cfg c label (us₁ ++ us₂) =
      loopRecords cfg c label us₁ ++ loopRecords cfg c label us₂ := by
  simp [loopRecords]

/-- Every record in loopRecords comes from some URL environment. -/
theorem loopRecords_mem {cfg : Config} {c : Collab} {label : String}
    {us : List (String × UrlEnv)} {r : CaptureRecord}
    (h : r ∈ loopRecords cfg c label us) :
    ∃ u, urlRecord cfg c label u = some r := by
  unfold loopRecords at h
  rw [List.mem_flatten] at h
  obtain ⟨l, hl, hrl⟩ := h
  rw [List.mem_map] at hl
  obtain ⟨u, hu, rfl⟩ := hl
  refine ⟨u, ?_⟩
  cases hcase : urlRecord cfg c label u with
  | none => rw [hcase] at hrl; simp at hrl
  | some r2 =>
    rw [hcase] at hrl
    simp at hrl
    rw [hrl]

/-- The URLs of the loop trace are the processed URLs, in order. -/
theorem loopEvents_map_url (cfg : Config) (c : Collab) (label : String)
    (us : List (String × UrlEnv)) :
    (loopEvents cfg c label us).map UrlEvent.url = us.map Prod.fst := by
  unfold loopEvents
  rw [List.map_map]
  rfl

/-- Every loop trace event has the cleanup flag set. -/
theorem loopEvents_cleanup (cfg : Config) (c : Collab) (label : String)
    (us : List (String × UrlEnv)) :
    ∀ e ∈ loopEvents cfg c label us, e.cleanupAttempted = true := by
  intro e he
  unfold loopEvents at he
  rw [List.mem_map] at he
  obtain ⟨u, _, rfl⟩ := he
  rfl

/-- processLabel appends the per-label records to the manifest and to
all_captures alike. -/
theorem processLabel_eq (cfg : Config) (c : Collab) (st : RunState)
    (le : String × List UrlEnv) :
    processLabel cfg c st le =
      ⟨st.manifestCaptures ++ loopRecords cfg c le.1 (targetUrls.zip le.2),
       st.allCaptures ++ loopRecords cfg c le.1 (targetUrls.zip le.2),
       st.events ++ loopEvents cfg c le.1 (targetUrls.zip le.2)⟩ := by
  simp [processLabel, searchAndCapture, captureLoop_eq]

/-- The label fold preserves agreement between the manifest captures
list and the all_captures accumulator. -/
theorem runFold_manifest_eq_all (cfg : Config) (c : Collab)
    (L : List (String × List UrlEnv)) : ∀ st : RunState,
    st.manifestCaptures = st.allCaptures →
    (L.foldl (processLabel cfg c) st).manifestCaptures =
      (L.foldl (processLabel cfg c) st).allCaptures := by
  induction L with
  | nil => intro st h; exact h
  | cons le L ih =>
    intro st h
    simp only [List.foldl_cons]
    exact ih _ (by rw [processLabel_eq]; simp [h])

/-- Every record in the folded manifest captures list arises from some
URL environment under some label. -/
theorem runFold_mem (cfg : Config) (c : Collab)
    (L : List (String × List UrlEnv)) : ∀ (st : RunState) (r : CaptureRecord),
    r ∈ (L.foldl (processLabel cfg c) st).manifestCaptures →
    r ∈ st.manifestCaptures ∨ ∃ label u, urlRecord cfg c label u = some r := by
  induction L with
  | nil => intro st r h; exact Or.inl h
  | cons le L ih =>
    intro st r h
    simp only [List.foldl_cons] at h
    rcases ih _ r h with h2 | h2
    · rw [processLabel_eq] at h2
      rcases List.mem_append.mp h2 with h3 | h3
      · exact Or.inl h3
      · obtain ⟨u, hu⟩ := loopRecords_mem h3
        exact Or.inr ⟨le.1, u, hu⟩
    · exact Or.inr h2

/-- Left cancellation for string append. -/
theorem string_append_left_cancel {a b₁ b₂ : String}
    (h : a ++ b₁ = a ++ b₂) : b₁ = b₂ := by
  cases a with
  | mk la =>
    cases b₁ with
    | mk lb =>
      cases b₂ with
      | mk lc =>
        simp only [String.instAppend, String.append] at h
        injection h with h2
        exact congrArg String.mk (List.append_cancel_left h2)

/-- C1: every capture record appended to the session manifest has
html_size at least the configured min_bytes threshold, and a capture
whose HTML byte length is below the threshold returns the no-capture
result, so no record for it is ever added to the manifest. -/
theorem manifest_html_size_ge_min (cfg : Config) (c : Collab)
    (envs : List (List UrlEnv)) :
    (∀ r ∈ (runCapture cfg c envs).1.captures,
        cfg.minBytes ≤ (r.html_size : Int)) ∧
    (∀ (env : PageEnv) (url label ts : String),
        (env.html.utf8ByteSize : Int) < cfg.minBytes →
        (capturePageData cfg c env url label ts).record = none) := by
  constructor
  · intro r hr
    have hmem : r ∈ ((cfg.labels.zip envs).foldl (processLabel cfg c)
        (⟨[], [], []⟩ : RunState)).manifestCaptures := hr
    rcases runFold_mem cfg c _ _ r hmem with h | ⟨label, u, hu⟩
    · simp at h
    · obtain ⟨resp, _, _, hsz, hr2⟩ :=
        capturePageData_record_some (urlRecord_some hu)
      subst hr2
      simpa using hsz
  · intro env url label ts h
    exact capturePageData_record_none_of_small h

/-- C1 witness: with the default one-million threshold, a five-byte
page is rejected. -/
theorem manifest_html_size_ge_min_witness :
    (capturePageData cfgBig collabId envEx "u" "L" "t").record = none :=
  (manifest_html_size_ge_min cfgBig collabId []).2 envEx "u" "L" "t" (by decide)

/-- C2: the hash_md5 and hash_sha256 fields of a successful capture are
the digests of the UTF-8 encoded HTML content, that same content is the
text written to the html file path of the record, and recomputing
either digest over any content written there returns the recorded
digest. -/
theorem record_hashes_match_saved_html (cfg : Config) (c : Collab)
    (env : PageEnv) (url label ts : String) (r : CaptureRecord)
    (h : (capturePageData cfg c env url label ts).record = some r) :
    r.hash_md5 = c.md5hex env.html ∧
    r.hash_sha256 = c.sha256hex env.html ∧
    (r.files.html, FileContent.text env.html) ∈
      (capturePageData cfg c env url label ts).writes ∧
    (∀ s : String,
      (r.files.html, FileContent.text s) ∈
        (capturePageData cfg c env url label ts).writes →
      c.md5hex s = r.hash_md5 ∧ c.sha256hex s = r.hash_sha256) := by
  have hw := capturePageData_writes_some h
  obtain ⟨resp, hnav, hok, hsz, hr⟩ := capturePageData_record_some h
  refine ⟨by rw [hr], by rw [hr], ?_, ?_⟩
  · rw [hw]
    exact List.mem_cons_self _ _
  · intro s hs
    rw [hw] at hs
    simp at hs
    subst hs
    rw [hr]
    exact ⟨rfl, rfl⟩

/-- C2 witness: the recorded md5 of the concrete capture equals the
digest of the page HTML. -/
theorem record_hashes_match_saved_html_witness :
    recEx.hash_md5 = collabId.md5hex envEx.html :=
  (record_hashes_match_saved_html cfgEx collabId envEx "u" "L" "t" recEx
    (by decide)).1

/-- C3: a URL whose navigation yields no response or a non-success
response (HTTP 404 included) gets the no-capture result with no writes
and no propagating exception, the loop output for the remaining URLs is
unchanged, and the exit code of a completed run is 0. -/
theorem http_failure_skips_url (cfg : Config) (c : Collab) (label : String)
    (env : PageEnv) (url ts : String)
    (hbad : env.nav = NavResult.noResponse ∨
      ∃ resp, env.nav = NavResult.resp resp ∧ resp.ok = false) :
    (capturePageData cfg c env url label ts).record = none ∧
    (capturePageData cfg c env url label ts).writes = [] ∧
    (∀ u : String × UrlEnv, u.2.page = env →
      ∀ us₁ us₂ st,
        (captureLoop cfg c label (us₁ ++ [u] ++ us₂) st).manifestCaptures =
          (captureLoop cfg c label (us₁ ++ us₂) st).manifestCaptures ∧
        (captureLoop cfg c label (us₁ ++ [u] ++ us₂) st).events.map UrlEvent.url =
          st.events.map UrlEvent.url ++ (us₁ ++ [u] ++ us₂).map Prod.fst) ∧
    mainExitCode RunOutcome.completed = 0 := by
  have hout := @capturePageData_bad_nav cfg c env url label ts hbad
  refine ⟨by rw [hout], by rw [hout], ?_, rfl⟩
  intro u hpage us₁ us₂ st
  have hnone : urlRecord cfg c label u = none := by
    apply urlRecord_none_of_record_none
    rw [hpage, capturePageData_bad_nav hbad]
  constructor
  · rw [captureLoop_eq, captureLoop_eq]
    simp [loopRecords_append, loopRecords, hnone]
  · rw [captureLoop_eq]
    simp [loopEvents_map_url]

/-- C3 witness: on HTTP 404 the capture returns no record. -/
theorem http_failure_skips_url_witness :
    (capturePageData cfgEx collabId env404 "u" "L" "t").record = none :=
  (http_failure_skips_url cfgEx collabId "L" env404 "u" "t"
    (Or.inr ⟨⟨404⟩, rfl, by decide⟩)).1

/-- C4 counterexample: capture_id is the md5 hexdigest of the
underscore-joined url, label and timestamp, and the join is ambiguous:
the distinct combinations (a_b, c, t) and (a, b_c, t) hash the same
string, so their capture_id values agree for every digest function. -/
theorem captureId_not_injective_cex :
    captureIdPre "a_b" "c" "t" = captureIdPre "a" "b_c" "t" ∧
    captureId collabId "a_b" "c" "t" = captureId collabId "a" "b_c" "t" ∧
    ("a_b", "c", "t") ≠ (("a", "b_c", "t") : String × String × String) := by
  exact ⟨by decide, by decide, by decide⟩

/-- C4 (amended): for a fixed url and label, distinct timestamps give
distinct strings to the digest, and distinct capture_id values whenever
the digest function does not collide on them. -/
theorem captureId_injective_in_timestamp (c : Collab)
    (hinj : Function.Injective c.md5hex) (url label ts₁ ts₂ : String)
    (hts : ts₁ ≠ ts₂) :
    captureId c url label ts₁ ≠ captureId c url label ts₂ := by
  intro h
  have hpre : (url ++ "_" ++ label ++ "_") ++ ts₁ =
      (url ++ "_" ++ label ++ "_") ++ ts₂ := hinj h
  exact hts (string_append_left_cancel hpre)

/-- C4 witness: two concrete timestamps for the same url and label give
distinct ids under an injective digest stand-in. -/
theorem captureId_injective_in_timestamp_witness :
    captureId collabId "u" "L" "t1" ≠ captureId collabId "u" "L" "t2" :=
  captureId_injective_in_timestamp collabId (fun _ _ hab => hab)
    "u" "L" "t1" "t2" (by decide)

/-- C5: an unexpected exception in a URL iteration (setup, new page or
capture) leaves no record for that URL and the captures of the other
URLs unchanged, every URL is attempted exactly once and in order (no
retries), and every trace event newly emitted has the cleanup flag set
by the finally block. -/
theorem unexpected_exception_isolated (cfg : Config) (c : Collab)
    (label : String) (uf : String × UrlEnv)
    (hf : uf.2.fault = Fault.setupRaises ∨ uf.2.fault = Fault.newPageRaises ∨
      uf.2.fault = Fault.captureRaises)
    (us₁ us₂ : List (String × UrlEnv)) (st : LoopState) :
    urlRecord cfg c label uf = none ∧
    (captureLoop cfg c label (us₁ ++ [uf] ++ us₂) st).manifestCaptures =
      (captureLoop cfg c label (us₁ ++ us₂) st).manifestCaptures ∧
    (captureLoop cfg c label (us₁ ++ [uf] ++ us₂) st).events.map UrlEvent.url =
      st.events.map UrlEvent.url ++ (us₁ ++ [uf] ++ us₂).map Prod.fst ∧
    ∀ e ∈ (captureLoop cfg c label (us₁ ++ [uf] ++ us₂) st).events,
      e ∈ st.events ∨ e.cleanupAttempted = true := by
  have hnone := @urlRecord_none_of_fault cfg c label uf hf
  refine ⟨hnone, ?_, ?_, ?_⟩
  · rw [captureLoop_eq, captureLoop_eq]
    simp [loopRecords_append, loopRecords, hnone]
  · rw [captureLoop_eq]
    simp [loopEvents_map_url]
  · intro e he
    rw [captureLoop_eq] at he
    rcases List.mem_append.mp he with h | h
    · exact Or.inl h
    · exact Or.inr (loopEvents_cleanup cfg c label _ e h)

/-- C5 witness: a URL whose browser setup raises contributes no
record. -/
theorem unexpected_exception_isolated_witness :
    urlRecord cfgEx collabId "L" ufEx = none :=
  (unexpected_exception_isolated cfgEx collabId "L" ufEx (Or.inl rfl)
    [] [] ⟨[], [], []⟩).1

/-- C6: a network-idle timeout is non-fatal: with the timeout the
capture produces the same record and the same writes as without it, and
a warning is logged. -/
theorem idle_timeout_nonfatal (cfg : Config) (c : Collab) (env : PageEnv)
    (url label ts : String) (resp : Response)
    (hnav : env.nav = NavResult.resp resp) (hok : resp.ok = true) :
    (capturePageData cfg c { env with idleTimesOut := true } url label ts).record =
      (capturePageData cfg c { env with idleTimesOut := false } url label ts).record ∧
    (capturePageData cfg c { env with idleTimesOut := true } url label ts).writes =
      (capturePageData cfg c { env with idleTimesOut := false } url label ts).writes ∧
    ("network idle timeout for " ++ url) ∈
      (capturePageData cfg c { env with idleTimesOut := true } url label ts).warnings := by
  unfold capturePageData
  simp only [hnav, hok]
  by_cases hsz : (env.html.utf8ByteSize : Int) < cfg.minBytes <;>
    simp [hsz]

/-- C6 witness: on the concrete environment, the record is unchanged by
an idle timeout. -/
theorem idle_timeout_nonfatal_witness :
    (capturePageData cfgEx collabId { envEx with idleTimesOut := true }
        "u" "L" "t").record =
      (capturePageData cfgEx collabId { envEx with idleTimesOut := false }
        "u" "L" "t").record :=
  (idle_timeout_nonfatal cfgEx collabId envEx "u" "L" "t" ⟨200⟩ rfl
    (by decide)).1

/-- C7: the three artifact files of a successful capture are the html
dump, the screenshot and the network log named by the shared capture id
and label, and the files field of the record stores exactly these three
relative paths, which are exactly the paths written. -/
theorem artifact_paths_consistent (cfg : Config) (c : Collab)
    (env : PageEnv) (url label ts : String) (r : CaptureRecord)
    (h : (capturePageData cfg c env url label ts).record = some r) :
    r.files = ⟨"html_dumps/" ++ r.capture_id ++ "_" ++ r.label ++ ".html",
               "screenshots/" ++ r.capture_id ++ "_" ++ r.label ++ ".png",
               "network_logs/" ++ r.capture_id ++ "_" ++ r.label ++ "_network.json"⟩ ∧
    (capturePageData cfg c env url label ts).writes.map Prod.fst =
      [r.files.html, r.files.screenshot, r.files.network] := by
  have hw := capturePageData_writes_some h
  obtain ⟨resp, hnav, hok, hsz, hr⟩ := capturePageData_record_some h
  constructor
  · rw [hr]
  · rw [hw]
    rfl

/-- C7 witness: the concrete record stores the three paths built from
its capture id and label. -/
theorem artifact_paths_consistent_witness :
    recEx.files = ⟨"html_dumps/" ++ recEx.capture_id ++ "_" ++ recEx.label ++ ".html",
                   "screenshots/" ++ recEx.capture_id ++ "_" ++ recEx.label ++ ".png",
                   "network_logs/" ++ recEx.capture_id ++ "_" ++ recEx.label ++ "_network.json"⟩ :=
  (artifact_paths_consistent cfgEx collabId envEx "u" "L" "t" recEx
    (by decide)).1

/-- C8: the network-log file of every successful capture holds the
capture id, the timestamp and an empty request list, and every
network-log write carries an empty request list. -/
theorem network_log_always_empty (cfg : Config) (c : Collab)
    (env : PageEnv) (url label ts : String) (r : CaptureRecord)
    (h : (capturePageData cfg c env url label ts).record = some r) :
    (r.files.network,
      FileContent.json ⟨r.capture_id, r.timestamp, ([] : List String)⟩) ∈
      (capturePageData cfg c env url label ts).writes ∧
    ∀ p d, (p, FileContent.json d) ∈
        (capturePageData cfg c env url label ts).writes →
      d.requests = [] := by
  have hw := capturePageData_writes_some h
  constructor
  · rw [hw]
    simp
  · intro p d hd
    rw [hw] at hd
    simp at hd
    obtain ⟨-, rfl⟩ := hd
    rfl

/-- C8 witness: the network-log write of the concrete capture has an
empty request list. -/
theorem network_log_always_empty_witness :
    (recEx.files.network,
      FileContent.json ⟨recEx.capture_id, recEx.timestamp, ([] : List String)⟩) ∈
      (capturePageData cfgEx collabId envEx "u" "L" "t").writes :=
  (network_log_always_empty cfgEx collabId envEx "u" "L" "t" recEx
    (by decide)).1

/-- C9: in the serialized session manifest, total_captures equals the
length of the captures list: the all_captures accumulator and the
manifest captures list receive exactly the same appends. -/
theorem total_captures_eq_captures_length (cfg : Config) (c : Collab)
    (envs : List (List UrlEnv)) :
    (runCapture cfg c envs).1.total_captures =
      (runCapture cfg c envs).1.captures.length := by
  have h := runFold_manifest_eq_all cfg c (cfg.labels.zip envs)
    (⟨[], [], []⟩ : RunState) rfl
  show ((cfg.labels.zip envs).foldl (processLabel cfg c)
      (⟨[], [], []⟩ : RunState)).allCaptures.length =
    ((cfg.labels.zip envs).foldl (processLabel cfg c)
      (⟨[], [], []⟩ : RunState)).manifestCaptures.length
  rw [h]

/-- C10: the min-bytes threshold is an arbitrary unvalidated integer,
and under a non-positive threshold the size gate never discards: every
capture that navigates successfully produces a record. -/
theorem nonpositive_min_bytes_never_discards (cfg : Config) (c : Collab)
    (hm : cfg.minBytes ≤ 0) (env : PageEnv) (url label ts : String)
    (resp : Response) (hnav : env.nav = NavResult.resp resp)
    (hok : resp.ok = true) :
    ((capturePageData cfg c env url label ts).record).isSome = true := by
  have hsz : ¬ ((env.html.utf8ByteSize : Int) < cfg.minBytes) :=
    not_lt.mpr (le_trans hm (Int.natCast_nonneg _))
  unfold capturePageData
  rw [hnav]
  simp [hok, hsz]

/-- C10 witness: with threshold -5, even an empty page is captured. -/
theorem nonpositive_min_bytes_never_discards_witness :
    ((capturePageData cfgNeg collabId envEx "u" "L" "t").record).isSome = true :=
  nonpositive_min_bytes_never_discards cfgNeg collabId (by decide)
    envEx "u" "L" "t" ⟨200⟩ rfl (by decide)

end ForensicCapture
